import Mathlib

/-!
Shallow embedding of the ticket workflow core of the Issue-Tracking-System
repository (FastAPI + SQLAlchemy): the ticket lifecycle operations of
src/routers/tickets.py, the agent-assignment helper, and the WebSocket
connection manager of src/ws_manager.py.

Timestamps are modelled as natural numbers (seconds); `timedelta(days=1)`
is 86400 seconds.  The database is a list of rows in storage order; the
SQLAlchemy queries `filter(... .id == x).first()` become a first-match
search over that list, and a committed mutation of a loaded row becomes a
keyed replacement.  `onupdate=func.now()` on `updated_at` is modelled by
setting `updated_at` to the current time on every committed mutation.
-/

namespace IssueTracker

/-- Ticket status enum from src/models.py.  `open_` stands for the source's
`open` member, which is a Lean keyword. -/
inductive TicketStatus where
  | open_
  | in_progress
  | assigned
  | pending_customer
  | closed
deriving DecidableEq, Repr

/-- Priority enum from src/models.py. -/
inductive Priority where
  | low
  | medium
  | high
  | critical
deriving DecidableEq, Repr

/-- Ticket row from src/models.py (timestamps as seconds). -/
structure Ticket where
  id : Nat
  title : String
  description : String
  priority : Priority
  status : TicketStatus
  customer_id : Nat
  agent_id : Option Nat
  product_id : Nat
  created_at : Nat
  updated_at : Nat
  closed_at : Option Nat
deriving DecidableEq, Repr

/-- Agent row from src/models.py (fields the core reads). -/
structure Agent where
  id : Nat
  name : String
  email : String
deriving DecidableEq, Repr

/-- Database state: agent and ticket rows in storage order. -/
structure DB where
  agents : List Agent
  tickets : List Ticket
deriving DecidableEq, Repr

/-- An HTTPException as raised by the routers. -/
structure HTTPError where
  status_code : Nat
  detail : String
deriving DecidableEq, Repr

/-- A WebSocket broadcast emitted by a ticket operation, identified by the
event kind and the ticket id mentioned in the message text. -/
inductive Event where
  | ticket_created (id : Nat)
  | ticket_updated (id : Nat)
  | ticket_pending_customer (id : Nat)
  | ticket_closed (id : Nat)
  | ticket_autoclosed (id : Nat)
deriving DecidableEq, Repr

/-- A task handed to FastAPI `BackgroundTasks`.  Starlette runs such tasks
right after the response is sent, so the run time equals the time of the
triggering request; `runs_at` records that time. -/
structure BackgroundTask where
  ticket_id : Nat
  runs_at : Nat
deriving DecidableEq, Repr

/-- Outcome of a ticket endpoint: the database after the call, the
broadcasts made, the background tasks added, and the HTTP result.  On an
HTTPException path the source mutates nothing and broadcasts nothing, so
`db` is the input state and `events` and `tasks` are empty there. -/
structure OpResult (α : Type) where
  db : List Ticket
  events : List Event
  tasks : List BackgroundTask
  result : Except HTTPError α

/-- `db.query(Ticket).filter(Ticket.id == tid).first()`: first row with the
given id, in storage order. -/
def findTicket : List Ticket → Nat → Option Ticket
  | [], _ => none
  | t :: ts, tid => if t.id = tid then some t else findTicket ts tid

/-- Committing a mutation of a loaded row: every row with the same primary
key is replaced by the new value (keys are unique in the real store). -/
def replaceTicket : List Ticket → Ticket → List Ticket
  | [], _ => []
  | u :: us, t => (if u.id = t.id then t else u) :: replaceTicket us t

def isOkE {α : Type} : Except HTTPError α → Bool
  | Except.ok _ => true
  | Except.error _ => false

/-- Active-ticket count of an agent: tickets referencing the agent whose
status is not closed (the outer-join count in assign_agent). -/
def activeTicketCount (tickets : List Ticket) (aid : Nat) : Nat :=
  (tickets.filter (fun t =>
    decide (t.agent_id = some aid ∧ t.status ≠ TicketStatus.closed))).length

/-- The `.order_by(count asc).first()` step of assign_agent.  The SQL sorts
by the active-ticket count only; among agents of equal count the row that
comes first is an artifact of storage iteration order, modelled as the
order of the agents list, so the running best is kept on a tie. -/
def pickAgent (tickets : List Ticket) : Nat → List Agent → Nat
  | best, [] => best
  | best, a :: rest =>
      if activeTicketCount tickets a.id < activeTicketCount tickets best then
        pickAgent tickets a.id rest
      else
        pickAgent tickets best rest

/-- assign_agent from src/routers/tickets.py: the agent with the least
number of active (non-closed) tickets, or HTTP 400 when there are no
agents at all. -/
def assign_agent (db : DB) : Except HTTPError Nat :=
  match db.agents with
  | [] => Except.error { status_code := 400, detail := "No available agents to assign" }
  | a :: rest => Except.ok (pickAgent db.tickets a.id rest)

/-- TicketCreate payload from src/schemas.py. -/
structure TicketCreate where
  title : String
  description : String
  priority : Priority
  product_id : Nat
  customer_id : Nat
  agent_id : Option Nat
deriving DecidableEq, Repr

/-- create_ticket from src/routers/tickets.py: auto-assigns an agent when
none is supplied, persists the ticket with status `assigned` (closed_at
unset), and broadcasts a creation message. -/
def create_ticket (db : DB) (tc : TicketCreate) (newId now : Nat) :
    Except HTTPError (DB × Ticket × List Event) :=
  match (match tc.agent_id with
         | some a => Except.ok a
         | none => assign_agent db) with
  | Except.error e => Except.error e
  | Except.ok aid =>
      let t : Ticket :=
        { id := newId, title := tc.title, description := tc.description,
          priority := tc.priority, status := TicketStatus.assigned,
          customer_id := tc.customer_id, agent_id := some aid,
          product_id := tc.product_id, created_at := now, updated_at := now,
          closed_at := none }
      Except.ok ({ db with tickets := db.tickets ++ [t] }, t,
        [Event.ticket_created newId])

/-- TicketUpdate payload from src/schemas.py; `none` means the field is
absent from the patch (pydantic exclude_unset). -/
structure TicketUpdate where
  title : Option String
  description : Option String
  priority : Option Priority
  status : Option TicketStatus
  agent_id : Option Nat
  product_id : Option Nat
deriving DecidableEq, Repr

/-- The setattr loop of update_ticket: each field present in the patch is
written verbatim; `updated_at` is refreshed by the commit. -/
def applyPatch (t : Ticket) (p : TicketUpdate) (now : Nat) : Ticket :=
  { t with
    title := p.title.getD t.title,
    description := p.description.getD t.description,
    priority := p.priority.getD t.priority,
    status := p.status.getD t.status,
    agent_id := (match p.agent_id with
                 | some a => some a
                 | none => t.agent_id),
    product_id := p.product_id.getD t.product_id,
    updated_at := now }

/-- update_ticket from src/routers/tickets.py: generic field patch, no
state-machine validation. -/
def update_ticket (db : List Ticket) (tid : Nat) (p : TicketUpdate) (now : Nat) :
    OpResult Ticket :=
  match findTicket db tid with
  | none =>
      { db := db, events := [], tasks := [],
        result := Except.error { status_code := 404, detail := "Ticket not found" } }
  | some t =>
      let t2 := applyPatch t p now
      { db := replaceTicket db t2, events := [Event.ticket_updated tid],
        tasks := [], result := Except.ok t2 }

/-- resolve_ticket from src/routers/tickets.py: 404 when the ticket is
missing, 400 when it is already closed, otherwise status becomes
`pending_customer`, a broadcast is made, and auto_close_ticket is handed
to BackgroundTasks — which runs it immediately after the response (the
source notes this itself), so the task's run time is the request time. -/
def resolve_ticket (db : List Ticket) (tid now : Nat) : OpResult Ticket :=
  match findTicket db tid with
  | none =>
      { db := db, events := [], tasks := [],
        result := Except.error { status_code := 404, detail := "Ticket not found" } }
  | some t =>
      if t.status = TicketStatus.closed then
        { db := db, events := [], tasks := [],
          result := Except.error { status_code := 400, detail := "Ticket already closed" } }
      else
        let t2 := { t with status := TicketStatus.pending_customer, updated_at := now }
        { db := replaceTicket db t2,
          events := [Event.ticket_pending_customer tid],
          tasks := [{ ticket_id := tid, runs_at := now }],
          result := Except.ok t2 }

/-- approve_ticket from src/routers/tickets.py: 404 when missing, 400 when
the status is not `pending_customer`, otherwise status becomes `closed`
and `closed_at` is set to the current time. -/
def approve_ticket (db : List Ticket) (tid now : Nat) : OpResult Unit :=
  match findTicket db tid with
  | none =>
      { db := db, events := [], tasks := [],
        result := Except.error { status_code := 404, detail := "Ticket not found" } }
  | some t =>
      if t.status = TicketStatus.pending_customer then
        let t2 := { t with status := TicketStatus.closed, closed_at := some now,
                           updated_at := now }
        { db := replaceTicket db t2, events := [Event.ticket_closed tid],
          tasks := [], result := Except.ok () }
      else
        { db := db, events := [], tasks := [],
          result := Except.error { status_code := 400, detail := "Ticket not waiting for approval" } }

/-- auto_close_ticket from src/routers/tickets.py: a no-op unless the
ticket exists, its status is `pending_customer`, and strictly more than
one day (86400 s) has elapsed since `updated_at`; in that case it closes
the ticket and broadcasts once. -/
def auto_close_ticket (db : List Ticket) (tid now : Nat) :
    List Ticket × List Event :=
  match findTicket db tid with
  | none => (db, [])
  | some t =>
      if t.status = TicketStatus.pending_customer then
        if 86400 < now - t.updated_at then
          let t2 := { t with status := TicketStatus.closed, closed_at := some now,
                             updated_at := now }
          (replaceTicket db t2, [Event.ticket_autoclosed tid])
        else (db, [])
      else (db, [])

/-- The `closed_at` invariant of the data model: `closed_at` is set iff the
status is `closed`. -/
def TicketInv (t : Ticket) : Prop :=
  t.closed_at.isSome = true ↔ t.status = TicketStatus.closed

/-- The invariant over every row of the store. -/
def DbInv (db : List Ticket) : Prop :=
  ∀ t ∈ db, TicketInv t

instance (t : Ticket) : Decidable (TicketInv t) := by
  unfold TicketInv; infer_instance

instance (db : List Ticket) : Decidable (DbInv db) := by
  unfold DbInv; infer_instance

/-!  ConnectionManager from src/ws_manager.py.  A channel is an abstract
WebSocket: an identity plus whether a send on it raises (the peer having
disconnected).  `active_connections` is a Python dict from agent id to
channel, modelled as an insertion-ordered association list with unique
keys; dict assignment replaces an existing binding in place and otherwise
appends, matching CPython semantics. -/

/-- An abstract WebSocket channel. -/
structure WebSocket where
  id : Nat
  fails : Bool
deriving DecidableEq, Repr

/-- `self.active_connections[agent_id] = websocket`: dict assignment. -/
def connect : List (Nat × WebSocket) → Nat → WebSocket → List (Nat × WebSocket)
  | [], aid, ws => [(aid, ws)]
  | p :: ps, aid, ws =>
      if p.1 = aid then (aid, ws) :: ps else p :: connect ps aid ws

/-- `if agent_id in self.active_connections: del ...`: dict deletion. -/
def disconnect : List (Nat × WebSocket) → Nat → List (Nat × WebSocket)
  | [], _ => []
  | p :: ps, aid => if p.1 = aid then ps else p :: disconnect ps aid

/-- Dict lookup, as `self.active_connections.get(agent_id)`. -/
def getChannel : List (Nat × WebSocket) → Nat → Option WebSocket
  | [], _ => none
  | p :: ps, aid => if p.1 = aid then some p.2 else getChannel ps aid

/-- Registry states reachable from the empty dict through connect and
disconnect calls. -/
inductive Reachable : List (Nat × WebSocket) → Prop where
  | init : Reachable []
  | conn (s : List (Nat × WebSocket)) (aid : Nat) (ws : WebSocket) :
      Reachable s → Reachable (connect s aid ws)
  | disc (s : List (Nat × WebSocket)) (aid : Nat) :
      Reachable s → Reachable (disconnect s aid)

/-- `await ws.send_json(message)` on one channel: delivery, or an
exception when the channel has failed. -/
def sendJson (ws : WebSocket) (msg : String) : Except String (Nat × String) :=
  if ws.fails then Except.error "send failed" else Except.ok (ws.id, msg)

/-- The broadcast loop of ConnectionManager.broadcast: sends to the
connected channels in order with no exception handling, so the first
failing send aborts the loop and its exception propagates to the caller.
Returns the deliveries actually made and the escaped exception, if any. -/
def broadcastRun : List WebSocket → String → List (Nat × String) × Option String
  | [], _ => ([], none)
  | ws :: rest, msg =>
      match sendJson ws msg with
      | Except.error e => ([], some e)
      | Except.ok d =>
          let r := broadcastRun rest msg
          (d :: r.1, r.2)

/-- `manager.broadcast(message)` over a registry state: the loop runs over
`active_connections.values()`. -/
def broadcast (s : List (Nat × WebSocket)) (msg : String) :
    List (Nat × String) × Option String :=
  broadcastRun (s.map Prod.snd) msg

/-- Sample ticket builder for concrete counterexamples and witnesses. -/
def tkt (i : Nat) (st : TicketStatus) (upd : Nat) (cl : Option Nat) : Ticket :=
  { id := i, title := "t", description := "d", priority := Priority.low,
    status := st, customer_id := 1, agent_id := some 1, product_id := 1,
    created_at := 0, updated_at := upd, closed_at := cl }

/-- A patch that only sets the status field. -/
def statusPatch (st : TicketStatus) : TicketUpdate :=
  { title := none, description := none, priority := none, status := some st,
    agent_id := none, product_id := none }

/-- Keys of the registry dict: the connected agent identities in order. -/
def regKeys (s : List (Nat × WebSocket)) : List Nat := s.map Prod.fst

/-! Helper lemmas about the store operations. -/

theorem findTicket_id {db : List Ticket} {tid : Nat} {t : Ticket}
    (h : findTicket db tid = some t) : t.id = tid := by
  induction db with
  | nil => simp [findTicket] at h
  | cons u us ih =>
      by_cases hu : u.id = tid
      · simp [findTicket, hu] at h
        subst h; exact hu
      · simp [findTicket, hu] at h
        exact ih h

theorem findTicket_replaceTicket {db : List Ticket} {tid : Nat} {t t2 : Ticket}
    (h : findTicket db tid = some t) (h2 : t2.id = tid) :
    findTicket (replaceTicket db t2) tid = some t2 := by
  induction db with
  | nil => simp [findTicket] at h
  | cons u us ih =>
      by_cases hu : u.id = tid
      · have : u.id = t2.id := by rw [h2]; exact hu
        simp [replaceTicket, findTicket, this, h2]
      · have hne : ¬ u.id = t2.id := by rw [h2]; exact hu
        simp [findTicket, hu] at h
        simp [replaceTicket, findTicket, hne, hu]
        exact ih h

theorem findTicket_mem {db : List Ticket} {tid : Nat} {t : Ticket}
    (h : findTicket db tid = some t) : t ∈ db := by
  induction db with
  | nil => simp [findTicket] at h
  | cons u us ih =>
      by_cases hu : u.id = tid
      · simp [findTicket, hu] at h
        simp [h]
      · simp [findTicket, hu] at h
        simp [ih h]

theorem mem_replaceTicket {db : List Ticket} {t x : Ticket}
    (h : x ∈ replaceTicket db t) : x = t ∨ x ∈ db := by
  induction db with
  | nil => simp [replaceTicket] at h
  | cons u us ih =>
      simp [replaceTicket] at h
      rcases h with h | h
      · by_cases hu : u.id = t.id
        · simp [hu] at h
          left; exact h
        · simp [hu] at h
          right; simp [h]
      · rcases ih h with h1 | h1
        · left; exact h1
        · right; simp [h1]

theorem pickAgent_le_best (tickets : List Ticket) (rest : List Agent) :
    ∀ best, activeTicketCount tickets (pickAgent tickets best rest)
      ≤ activeTicketCount tickets best := by
  induction rest with
  | nil =>
      intro best
      simp [pickAgent]
  | cons a as ih =>
      intro best
      by_cases h : activeTicketCount tickets a.id < activeTicketCount tickets best
      · simp [pickAgent, h]
        exact le_trans (ih a.id) (le_of_lt h)
      · simp [pickAgent, h]
        exact ih best

theorem pickAgent_le_all (tickets : List Ticket) (rest : List Agent) :
    ∀ best a, a ∈ rest →
      activeTicketCount tickets (pickAgent tickets best rest)
        ≤ activeTicketCount tickets a.id := by
  induction rest with
  | nil =>
      intro best a ha
      simp at ha
  | cons b bs ih =>
      intro best a ha
      rcases List.mem_cons.mp ha with h1 | h1
      · subst h1
        by_cases h : activeTicketCount tickets a.id < activeTicketCount tickets best
        · simp [pickAgent, h]
          exact pickAgent_le_best tickets bs a.id
        · simp [pickAgent, h]
          exact le_trans (pickAgent_le_best tickets bs best) (le_of_not_lt h)
      · by_cases h : activeTicketCount tickets b.id < activeTicketCount tickets best
        · simp [pickAgent, h]
          exact ih b.id a h1
        · simp [pickAgent, h]
          exact ih best a h1

theorem pickAgent_mem (tickets : List Ticket) (rest : List Agent) :
    ∀ best, pickAgent tickets best rest = best
      ∨ ∃ a ∈ rest, a.id = pickAgent tickets best rest := by
  induction rest with
  | nil =>
      intro best
      left
      simp [pickAgent]
  | cons b bs ih =>
      intro best
      by_cases h : activeTicketCount tickets b.id < activeTicketCount tickets best
      · simp only [pickAgent, if_pos h]
        rcases ih b.id with h1 | ⟨a, ha, h2⟩
        · right
          exact ⟨b, by simp, h1.symm⟩
        · right
          exact ⟨a, by simp [ha], h2⟩
      · simp only [pickAgent, if_neg h]
        rcases ih best with h1 | ⟨a, ha, h2⟩
        · left
          exact h1
        · right
          exact ⟨a, by simp [ha], h2⟩

/-! Helper lemmas about the broadcast loop and the connection registry. -/

theorem broadcastRun_all_ok (msg : String) :
    ∀ conns : List WebSocket, (∀ ws ∈ conns, ws.fails = false) →
      broadcastRun conns msg = (conns.map (fun ws => (ws.id, msg)), none) := by
  intro conns
  induction conns with
  | nil =>
      intro _
      simp [broadcastRun]
  | cons w ws ih =>
      intro h
      have hw : w.fails = false := h w (by simp)
      have hrest : ∀ x ∈ ws, x.fails = false := fun x hx => h x (by simp [hx])
      simp [broadcastRun, sendJson, hw, ih hrest]

theorem broadcastRun_first_failure (msg : String) (wsx : WebSocket)
    (post : List WebSocket) (hfail : wsx.fails = true) :
    ∀ pre : List WebSocket, (∀ w ∈ pre, w.fails = false) →
      broadcastRun (pre ++ wsx :: post) msg
        = (pre.map (fun w => (w.id, msg)), some "send failed") := by
  intro pre
  induction pre with
  | nil =>
      intro _
      simp [broadcastRun, sendJson, hfail]
  | cons p ps ih =>
      intro h
      have hp : p.fails = false := h p (by simp)
      have hps : ∀ x ∈ ps, x.fails = false := fun x hx => h x (by simp [hx])
      simp [broadcastRun, sendJson, hp, ih hps]

theorem mem_regKeys_connect {s : List (Nat × WebSocket)} {aid b : Nat}
    {ws : WebSocket} (h : b ∈ regKeys (connect s aid ws)) :
    b = aid ∨ b ∈ regKeys s := by
  induction s with
  | nil =>
      left
      simpa [connect, regKeys] using h
  | cons p ps ih =>
      by_cases hp : p.1 = aid
      · rw [show connect (p :: ps) aid ws = (aid, ws) :: ps from by
          simp [connect, hp]] at h
        simp only [regKeys, List.map_cons, List.mem_cons] at h
        rcases h with h | h
        · left
          exact h
        · right
          simp only [regKeys, List.map_cons, List.mem_cons]
          right
          exact h
      · rw [show connect (p :: ps) aid ws = p :: connect ps aid ws from by
          simp [connect, hp]] at h
        simp only [regKeys, List.map_cons, List.mem_cons] at h
        rcases h with h | h
        · right
          simp only [regKeys, List.map_cons, List.mem_cons]
          left
          exact h
        · rcases ih h with h1 | h1
          · left
            exact h1
          · right
            simp only [regKeys, List.map_cons, List.mem_cons]
            right
            exact h1

theorem nodup_regKeys_connect {s : List (Nat × WebSocket)} (aid : Nat)
    (ws : WebSocket) (h : (regKeys s).Nodup) :
    (regKeys (connect s aid ws)).Nodup := by
  induction s with
  | nil => simp [connect, regKeys]
  | cons p ps ih =>
      by_cases hp : p.1 = aid
      · simp only [connect, if_pos hp, regKeys, List.map_cons]
        rw [← hp]
        simpa [regKeys] using h
      · simp only [regKeys, List.map_cons, List.nodup_cons] at h
        simp only [connect, if_neg hp, regKeys, List.map_cons, List.nodup_cons]
        refine ⟨?_, ih h.2⟩
        intro hmem
        rcases mem_regKeys_connect (by simpa [regKeys] using hmem) with h1 | h1
        · exact hp h1
        · exact h.1 (by simpa [regKeys] using h1)

theorem mem_regKeys_disconnect {s : List (Nat × WebSocket)} {aid b : Nat}
    (h : b ∈ regKeys (disconnect s aid)) : b ∈ regKeys s := by
  induction s with
  | nil => simp [disconnect, regKeys] at h
  | cons p ps ih =>
      by_cases hp : p.1 = aid
      · rw [show disconnect (p :: ps) aid = ps from by simp [disconnect, hp]] at h
        simp only [regKeys, List.map_cons, List.mem_cons]
        right
        exact h
      · rw [show disconnect (p :: ps) aid = p :: disconnect ps aid from by
          simp [disconnect, hp]] at h
        simp only [regKeys, List.map_cons, List.mem_cons] at h ⊢
        rcases h with h | h
        · left
          exact h
        · right
          exact ih h

theorem nodup_regKeys_disconnect {s : List (Nat × WebSocket)} (aid : Nat)
    (h : (regKeys s).Nodup) : (regKeys (disconnect s aid)).Nodup := by
  induction s with
  | nil => simp [disconnect, regKeys]
  | cons p ps ih =>
      simp only [regKeys, List.map_cons, List.nodup_cons] at h
      by_cases hp : p.1 = aid
      · simp only [disconnect, if_pos hp]
        simpa [regKeys] using h.2
      · simp only [disconnect, if_neg hp, regKeys, List.map_cons, List.nodup_cons]
        refine ⟨?_, ih h.2⟩
        intro hm
        exact h.1 (by simpa [regKeys] using mem_regKeys_disconnect (by simpa [regKeys] using hm))

theorem reachable_nodup_regKeys {s : List (Nat × WebSocket)} (h : Reachable s) :
    (regKeys s).Nodup := by
  induction h with
  | init => simp [regKeys]
  | conn s aid ws _ ih => exact nodup_regKeys_connect aid ws ih
  | disc s aid _ ih => exact nodup_regKeys_disconnect aid ih

theorem getChannel_connect (s : List (Nat × WebSocket)) (aid : Nat)
    (ws : WebSocket) : getChannel (connect s aid ws) aid = some ws := by
  induction s with
  | nil => simp [connect, getChannel]
  | cons p ps ih =>
      by_cases hp : p.1 = aid
      · simp [connect, hp, getChannel]
      · simp [connect, hp, getChannel, ih]

theorem filter_key_length_le_one {s : List (Nat × WebSocket)}
    (h : (regKeys s).Nodup) (aid : Nat) :
    (s.filter (fun p => decide (p.1 = aid))).length ≤ 1 := by
  induction s with
  | nil => simp
  | cons p ps ih =>
      simp only [regKeys, List.map_cons, List.nodup_cons] at h
      by_cases hp : p.1 = aid
      · have hnil : ps.filter (fun q => decide (q.1 = aid)) = [] := by
          rw [List.filter_eq_nil_iff]
          intro q hq hqa
          simp at hqa
          exact h.1 (by
            rw [← hp] at hqa
            simpa [regKeys, ← hqa] using List.mem_map_of_mem Prod.fst hq)
        simp [List.filter_cons, hp, hnil]
      · simp only [List.filter_cons, decide_eq_true_eq, hp, if_false]
        exact ih h.2

/-- C1 counterexample: resolve succeeds on an existing ticket whose status
is `open`, although `open` is neither `assigned` nor `in_progress`,
refuting the claim that resolve succeeds exactly when the status is in
{assigned, in_progress}. -/
theorem resolve_succeeds_on_open_ticket :
    isOkE (resolve_ticket [tkt 1 TicketStatus.open_ 0 none] 1 10).result = true
    ∧ (tkt 1 TicketStatus.open_ 0 none).status ≠ TicketStatus.assigned
    ∧ (tkt 1 TicketStatus.open_ 0 none).status ≠ TicketStatus.in_progress := by
  decide

/-- C1 (amended): resolve succeeds exactly when the ticket exists and its
status is not `closed`; it fails 404 (NotFound) when the ticket is
missing, fails 400 (InvalidTransition) when the status is `closed`,
leaving the store unchanged in both failure cases, and on success the
returned ticket has status `pending_customer`. -/
theorem resolve_spec (db : List Ticket) (tid now : Nat) :
    (isOkE (resolve_ticket db tid now).result = true ↔
      ∃ t, findTicket db tid = some t ∧ t.status ≠ TicketStatus.closed)
  ∧ (findTicket db tid = none →
      (resolve_ticket db tid now).result
        = Except.error { status_code := 404, detail := "Ticket not found" }
      ∧ (resolve_ticket db tid now).db = db)
  ∧ (∀ t, findTicket db tid = some t → t.status = TicketStatus.closed →
      (resolve_ticket db tid now).result
        = Except.error { status_code := 400, detail := "Ticket already closed" }
      ∧ (resolve_ticket db tid now).db = db)
  ∧ (∀ t2, (resolve_ticket db tid now).result = Except.ok t2 →
      t2.status = TicketStatus.pending_customer) := by
  rcases hf : findTicket db tid with _ | t
  · simp [resolve_ticket, hf, isOkE]
  · by_cases hc : t.status = TicketStatus.closed
    · simp [resolve_ticket, hf, hc, isOkE]
    · simp [resolve_ticket, hf, hc, isOkE]

/-- Witness for resolve_spec at a concrete closed ticket. -/
theorem resolve_spec_witness :
    (resolve_ticket [tkt 1 TicketStatus.closed 0 (some 0)] 1 9).result
      = Except.error { status_code := 400, detail := "Ticket already closed" }
    ∧ (resolve_ticket [tkt 1 TicketStatus.closed 0 (some 0)] 1 9).db
      = [tkt 1 TicketStatus.closed 0 (some 0)] :=
  (resolve_spec [tkt 1 TicketStatus.closed 0 (some 0)] 1 9).2.2.1
    (tkt 1 TicketStatus.closed 0 (some 0)) rfl rfl

/-- C4: approve fails 404 (NotFound) when the ticket is missing and 400
(InvalidTransition) when its status is not `pending_customer`, leaving
the store unchanged in both failure cases; when the status is
`pending_customer` it succeeds and the stored ticket gets status `closed`
and `closed_at` equal to the current time. -/
theorem approve_spec (db : List Ticket) (tid now : Nat) :
    (findTicket db tid = none →
      (approve_ticket db tid now).result
        = Except.error { status_code := 404, detail := "Ticket not found" }
      ∧ (approve_ticket db tid now).db = db)
  ∧ (∀ t, findTicket db tid = some t → t.status ≠ TicketStatus.pending_customer →
      (approve_ticket db tid now).result
        = Except.error { status_code := 400, detail := "Ticket not waiting for approval" }
      ∧ (approve_ticket db tid now).db = db)
  ∧ (∀ t, findTicket db tid = some t → t.status = TicketStatus.pending_customer →
      (approve_ticket db tid now).result = Except.ok ()
      ∧ findTicket (approve_ticket db tid now).db tid
          = some { t with status := TicketStatus.closed, closed_at := some now,
                          updated_at := now }) := by
  rcases hf : findTicket db tid with _ | t
  · simp [approve_ticket, hf]
  · by_cases hp : t.status = TicketStatus.pending_customer
    · simp [approve_ticket, hf, hp]
      exact findTicket_replaceTicket hf (by simp [findTicket_id hf])
    · simp [approve_ticket, hf, hp]

/-- Witness for approve_spec at a concrete pending ticket. -/
theorem approve_spec_witness :
    (approve_ticket [tkt 5 TicketStatus.pending_customer 0 none] 5 77).result
      = Except.ok ()
    ∧ findTicket (approve_ticket [tkt 5 TicketStatus.pending_customer 0 none] 5 77).db 5
        = some { tkt 5 TicketStatus.pending_customer 0 none with
                 status := TicketStatus.closed, closed_at := some 77,
                 updated_at := 77 } :=
  (approve_spec [tkt 5 TicketStatus.pending_customer 0 none] 5 77).2.2
    (tkt 5 TicketStatus.pending_customer 0 none) rfl rfl

/-- C10: on a successful resolve only the status (and the automatically
refreshed `updated_at`) change: title, description, priority,
customer_id, agent_id, product_id, created_at and closed_at are
unchanged. -/
theorem resolve_frame (db : List Ticket) (tid now : Nat) (t t2 : Ticket)
    (hf : findTicket db tid = some t)
    (hok : (resolve_ticket db tid now).result = Except.ok t2) :
    t2.id = t.id ∧ t2.title = t.title ∧ t2.description = t.description
    ∧ t2.priority = t.priority ∧ t2.customer_id = t.customer_id
    ∧ t2.agent_id = t.agent_id ∧ t2.product_id = t.product_id
    ∧ t2.created_at = t.created_at ∧ t2.closed_at = t.closed_at
    ∧ t2.status = TicketStatus.pending_customer ∧ t2.updated_at = now := by
  by_cases hc : t.status = TicketStatus.closed
  · simp [resolve_ticket, hf, hc] at hok
  · simp [resolve_ticket, hf, hc] at hok
    subst hok
    simp

/-- Witness for resolve_frame at a concrete assigned ticket. -/
theorem resolve_frame_witness :
    ({ tkt 3 TicketStatus.assigned 0 none with
       status := TicketStatus.pending_customer, updated_at := 50 } : Ticket).closed_at
      = (tkt 3 TicketStatus.assigned 0 none).closed_at :=
  (resolve_frame [tkt 3 TicketStatus.assigned 0 none] 3 50
    (tkt 3 TicketStatus.assigned 0 none)
    { tkt 3 TicketStatus.assigned 0 none with
      status := TicketStatus.pending_customer, updated_at := 50 }
    rfl rfl).2.2.2.2.2.2.2.2.1

/-- C2 counterexample: a generic update that patches the status to
`closed` leaves `closed_at` unset, breaking the claimed invariant that
every core operation preserves it. -/
theorem update_breaks_closed_at_invariant :
    DbInv [tkt 1 TicketStatus.assigned 0 none]
    ∧ ¬ DbInv (update_ticket [tkt 1 TicketStatus.assigned 0 none] 1
        (statusPatch TicketStatus.closed) 5).db := by
  decide

/-- C2 (amended): create, resolve, approve and the auto-close check all
preserve the invariant that `closed_at` is set iff the status is
`closed`; the generic update preserves it when the patch does not set the
status field (a status-setting patch can break it, as the counterexample
shows). -/
theorem closed_at_invariant (db : DB) (tc : TicketCreate)
    (nid now tid : Nat) (p : TicketUpdate) (hinv : DbInv db.tickets) :
    (∀ db2 t evs, create_ticket db tc nid now = Except.ok (db2, t, evs) →
        DbInv db2.tickets)
  ∧ DbInv (resolve_ticket db.tickets tid now).db
  ∧ DbInv (approve_ticket db.tickets tid now).db
  ∧ DbInv (auto_close_ticket db.tickets tid now).1
  ∧ (p.status = none → DbInv (update_ticket db.tickets tid p now).db) := by
  refine ⟨?_, ?_, ?_, ?_, ?_⟩
  · intro db2 t evs hok
    unfold create_ticket at hok
    rcases hagent : (match tc.agent_id with
                     | some a => Except.ok a
                     | none => assign_agent db) with e | aid
    · rw [hagent] at hok
      simp at hok
    · rw [hagent] at hok
      simp at hok
      rcases hok with ⟨hdb2, _, _⟩
      subst hdb2
      intro x hx
      simp at hx
      rcases hx with hx | hx
      · exact hinv x hx
      · subst hx
        simp [TicketInv]
  · rcases hf : findTicket db.tickets tid with _ | t
    · simpa [resolve_ticket, hf] using hinv
    · by_cases hc : t.status = TicketStatus.closed
      · simpa [resolve_ticket, hf, hc] using hinv
      · have ht := hinv t (findTicket_mem hf)
        simp [TicketInv, hc] at ht
        simp [resolve_ticket, hf, hc]
        intro x hx
        rcases mem_replaceTicket hx with h1 | h1
        · subst h1
          simp [TicketInv, ht]
        · exact hinv x h1
  · rcases hf : findTicket db.tickets tid with _ | t
    · simpa [approve_ticket, hf] using hinv
    · by_cases hp : t.status = TicketStatus.pending_customer
      · simp [approve_ticket, hf, hp]
        intro x hx
        rcases mem_replaceTicket hx with h1 | h1
        · subst h1
          simp [TicketInv]
        · exact hinv x h1
      · simpa [approve_ticket, hf, hp] using hinv
  · rcases hf : findTicket db.tickets tid with _ | t
    · simpa [auto_close_ticket, hf] using hinv
    · by_cases hp : t.status = TicketStatus.pending_customer
      · by_cases hd : 86400 < now - t.updated_at
        · simp [auto_close_ticket, hf, hp, hd]
          intro x hx
          rcases mem_replaceTicket hx with h1 | h1
          · subst h1
            simp [TicketInv]
          · exact hinv x h1
        · simpa [auto_close_ticket, hf, hp, hd] using hinv
      · simpa [auto_close_ticket, hf, hp] using hinv
  · intro hps
    rcases hf : findTicket db.tickets tid with _ | t
    · simpa [update_ticket, hf] using hinv
    · have ht := hinv t (findTicket_mem hf)
      simp [update_ticket, hf]
      intro x hx
      rcases mem_replaceTicket hx with h1 | h1
      · subst h1
        simpa [TicketInv, applyPatch, hps] using ht
      · exact hinv x h1

/-- Witness for closed_at_invariant on a concrete one-ticket store. -/
theorem closed_at_invariant_witness :
    DbInv (resolve_ticket [tkt 2 TicketStatus.assigned 0 none] 2 30).db :=
  (closed_at_invariant
      { agents := [], tickets := [tkt 2 TicketStatus.assigned 0 none] }
      { title := "x", description := "y", priority := Priority.low,
        product_id := 1, customer_id := 1, agent_id := some 1 }
      9 30 2 (statusPatch TicketStatus.closed) (by decide)).2.1

/-- C6 counterexample: at an elapsed time of exactly 24 hours the check is
a no-op, although the elapsed time is not below the threshold, so the
code closes only when strictly more than 24 hours have elapsed. -/
theorem auto_close_exact_deadline_no_op :
    (tkt 1 TicketStatus.pending_customer 0 none).status
      = TicketStatus.pending_customer
    ∧ ¬ (86400 - (tkt 1 TicketStatus.pending_customer 0 none).updated_at < 86400)
    ∧ auto_close_ticket [tkt 1 TicketStatus.pending_customer 0 none] 1 86400
        = ([tkt 1 TicketStatus.pending_customer 0 none], []) := by
  decide

/-- C6 (amended): the auto-close check is a silent no-op (store unchanged,
no event) when the ticket is missing, or its status is not
`pending_customer`, or at most 24 hours (86400 s) have elapsed since
`updated_at`; when the status is `pending_customer` and strictly more
than 24 hours have elapsed it closes the ticket, sets `closed_at` to the
current time, and emits one event; on an already-closed ticket two
consecutive checks change nothing and emit no event. -/
theorem auto_close_spec (db : List Ticket) (tid now : Nat) :
    (findTicket db tid = none → auto_close_ticket db tid now = (db, []))
  ∧ (∀ t, findTicket db tid = some t → t.status ≠ TicketStatus.pending_customer →
      auto_close_ticket db tid now = (db, []))
  ∧ (∀ t, findTicket db tid = some t → now - t.updated_at ≤ 86400 →
      auto_close_ticket db tid now = (db, []))
  ∧ (∀ t, findTicket db tid = some t → t.status = TicketStatus.pending_customer →
      86400 < now - t.updated_at →
      auto_close_ticket db tid now
        = (replaceTicket db
             { t with status := TicketStatus.closed,
                      closed_at := some now, updated_at := now },
           [Event.ticket_autoclosed tid]))
  ∧ (∀ t, findTicket db tid = some t → t.status = TicketStatus.closed →
      ∀ n2, auto_close_ticket (auto_close_ticket db tid now).1 tid n2 = (db, [])
        ∧ (auto_close_ticket db tid now).2 = []) := by
  refine ⟨?_, ?_, ?_, ?_, ?_⟩
  · intro hf
    simp [auto_close_ticket, hf]
  · intro t hf hp
    simp [auto_close_ticket, hf, hp]
  · intro t hf hle
    by_cases hp : t.status = TicketStatus.pending_customer
    · have hd : ¬ 86400 < now - t.updated_at := by omega
      simp [auto_close_ticket, hf, hp, hd]
    · simp [auto_close_ticket, hf, hp]
  · intro t hf hp hd
    simp [auto_close_ticket, hf, hp, hd]
  · intro t hf hcl n2
    have hp : ¬ t.status = TicketStatus.pending_customer := by simp [hcl]
    have h1 : auto_close_ticket db tid now = (db, []) := by
      simp [auto_close_ticket, hf, hp]
    refine ⟨?_, by rw [h1]⟩
    rw [h1]
    simp [auto_close_ticket, hf, hp]

/-- Witness for auto_close_spec: a pending ticket past the deadline is
closed by the check. -/
theorem auto_close_spec_witness :
    auto_close_ticket [tkt 7 TicketStatus.pending_customer 0 none] 7 100000
      = (replaceTicket [tkt 7 TicketStatus.pending_customer 0 none]
           { tkt 7 TicketStatus.pending_customer 0 none with
             status := TicketStatus.closed, closed_at := some 100000,
             updated_at := 100000 },
         [Event.ticket_autoclosed 7]) :=
  (auto_close_spec [tkt 7 TicketStatus.pending_customer 0 none] 7 100000).2.2.2.1
    (tkt 7 TicketStatus.pending_customer 0 none) rfl rfl (by decide)

/-- C7: once a pending ticket has been approved, a later auto-close check
at any time (also long after the 24-hour window) leaves the store
unchanged and emits nothing: the check re-validates the persisted status,
which is `closed` after approval. -/
theorem approved_never_auto_closed (db : List Ticket) (tid now : Nat) (t : Ticket)
    (hf : findTicket db tid = some t)
    (hp : t.status = TicketStatus.pending_customer) :
    ∀ later, auto_close_ticket (approve_ticket db tid now).db tid later
      = ((approve_ticket db tid now).db, []) := by
  intro later
  have hdb : (approve_ticket db tid now).db
      = replaceTicket db
          { t with status := TicketStatus.closed,
                   closed_at := some now, updated_at := now } := by
    simp [approve_ticket, hf, hp]
  have hfind : findTicket (approve_ticket db tid now).db tid
      = some { t with status := TicketStatus.closed, closed_at := some now,
                      updated_at := now } := by
    rw [hdb]
    exact findTicket_replaceTicket hf (by simp [findTicket_id hf])
  simp [auto_close_ticket, hfind]

/-- Witness for approved_never_auto_closed: the scheduler firing long
after the window cannot touch an approved ticket. -/
theorem approved_never_auto_closed_witness :
    auto_close_ticket
      (approve_ticket [tkt 4 TicketStatus.pending_customer 0 none] 4 10).db 4 999999
      = ((approve_ticket [tkt 4 TicketStatus.pending_customer 0 none] 4 10).db, []) :=
  approved_never_auto_closed [tkt 4 TicketStatus.pending_customer 0 none] 4 10
    (tkt 4 TicketStatus.pending_customer 0 none) rfl rfl 999999

/-- C3 counterexample: two agents with equal (zero) active-ticket count,
stored with id 2 before id 1: selection returns id 2, not the lowest id,
so ties follow storage iteration order rather than the claimed lowest-id
rule. -/
theorem assign_agent_tie_not_lowest_id :
    assign_agent
      { agents := [{ id := 2, name := "b", email := "b" },
                   { id := 1, name := "a", email := "a" }],
        tickets := [] }
      = Except.ok 2
    ∧ activeTicketCount [] 2 = activeTicketCount [] 1
    ∧ (1 : Nat) < 2 :=
  ⟨rfl, rfl, by decide⟩

/-- C3 (amended): agent selection fails with 400 (NoAvailableAgent)
exactly when the agent set is empty, and otherwise returns an agent of
the store whose active-ticket count is least over all agents; a tie is
broken by storage iteration order (the first stored agent among those of
least count), not by lowest agent id.  Being a function of the store, the
selection is deterministic across repeated calls on the same state. -/
theorem assign_agent_spec (db : DB) :
    ((isOkE (assign_agent db) = false) ↔ db.agents = [])
  ∧ (db.agents = [] →
      assign_agent db
        = Except.error { status_code := 400, detail := "No available agents to assign" })
  ∧ (∀ aid, assign_agent db = Except.ok aid →
      (∃ a ∈ db.agents, a.id = aid)
      ∧ ∀ a ∈ db.agents,
          activeTicketCount db.tickets aid ≤ activeTicketCount db.tickets a.id) := by
  rcases hag : db.agents with _ | ⟨a, rest⟩
  · simp [assign_agent, hag, isOkE]
  · simp only [assign_agent, hag, isOkE]
    refine ⟨by simp, by simp, ?_⟩
    intro aid haid
    simp only [Except.ok.injEq] at haid
    subst haid
    constructor
    · rcases pickAgent_mem db.tickets rest a.id with h1 | ⟨x, hx, h2⟩
      · exact ⟨a, by simp, h1.symm⟩
      · exact ⟨x, by simp [hx], h2⟩
    · intro x hx
      rcases List.mem_cons.mp hx with h1 | h1
      · subst h1
        exact pickAgent_le_best db.tickets rest x.id
      · exact pickAgent_le_all db.tickets rest a.id x h1

/-- Witness for assign_agent_spec: with a loaded agent 1 and a free agent
2, the selection returns agent 2. -/
theorem assign_agent_spec_witness :
    (∃ a ∈ ({ agents := [{ id := 1, name := "a", email := "a" },
                         { id := 2, name := "b", email := "b" }],
              tickets := [tkt 9 TicketStatus.assigned 0 none] } : DB).agents,
        a.id = 2)
    ∧ ∀ a ∈ ({ agents := [{ id := 1, name := "a", email := "a" },
                          { id := 2, name := "b", email := "b" }],
               tickets := [tkt 9 TicketStatus.assigned 0 none] } : DB).agents,
        activeTicketCount [tkt 9 TicketStatus.assigned 0 none] 2
          ≤ activeTicketCount [tkt 9 TicketStatus.assigned 0 none] a.id :=
  (assign_agent_spec
    { agents := [{ id := 1, name := "a", email := "a" },
                 { id := 2, name := "b", email := "b" }],
      tickets := [tkt 9 TicketStatus.assigned 0 none] }).2.2 2 rfl

/-- C5: evaluating resolve on a concrete assigned ticket at time 1000: the
call succeeds, yet the one auto-close check it schedules runs at time
1000 itself — FastAPI BackgroundTasks run right after the response, as
the source notes — which is strictly before the 24-hour deadline
1000 + 86400, and no further invocation is ever scheduled; the check is
therefore neither armed for 24 hours later nor executed at or after the
deadline. -/
theorem resolve_arms_check_immediately :
    isOkE (resolve_ticket [tkt 5 TicketStatus.assigned 0 none] 5 1000).result = true
    ∧ (resolve_ticket [tkt 5 TicketStatus.assigned 0 none] 5 1000).tasks
        = [{ ticket_id := 5, runs_at := 1000 }]
    ∧ (1000 : Nat) < 1000 + 86400 := by
  decide

/-- C8 counterexample: with a failed channel registered before a healthy
one, broadcast delivers to no channel and the send exception escapes to
the caller — the failure of one channel both prevents delivery to the
remaining channel and surfaces as an error, refuting the claim. -/
theorem broadcast_failure_aborts_fanout :
    (broadcastRun [{ id := 1, fails := true }, { id := 2, fails := false }] "m").2
      = some "send failed"
    ∧ (broadcastRun [{ id := 1, fails := true }, { id := 2, fails := false }] "m").1
      = [] := by
  decide

/-- C8 (amended): broadcast sends to the channels connected at the instant
of the call in registration order; when every send succeeds, every such
channel receives the event and no error is raised, but the first failing
channel aborts delivery to all channels after it and its exception
propagates to the caller. -/
theorem broadcast_spec (s : List (Nat × WebSocket)) (msg : String) :
    ((∀ ws ∈ s.map Prod.snd, ws.fails = false) →
      broadcast s msg = ((s.map Prod.snd).map (fun ws => (ws.id, msg)), none))
  ∧ (∀ pre ws post, s.map Prod.snd = pre ++ ws :: post →
      (∀ w ∈ pre, w.fails = false) → ws.fails = true →
      broadcast s msg = (pre.map (fun w => (w.id, msg)), some "send failed")) := by
  constructor
  · intro hall
    unfold broadcast
    exact broadcastRun_all_ok msg (s.map Prod.snd) hall
  · intro pre ws post hsplit hpre hfail
    unfold broadcast
    rw [hsplit]
    exact broadcastRun_first_failure msg ws post hfail pre hpre

/-- Witness for broadcast_spec: two healthy channels both receive the
event and no error is raised. -/
theorem broadcast_spec_witness :
    broadcast [(1, { id := 1, fails := false }), (2, { id := 2, fails := false })] "m"
      = ([(1, "m"), (2, "m")], none) :=
  (broadcast_spec
    [(1, { id := 1, fails := false }), (2, { id := 2, fails := false })] "m").1
    (by decide)

/-- C9: in every registry state reachable from the empty dict through
connect and disconnect calls, each agent identity maps to at most one
channel — two registered entries with the same identity are the same
entry, and the entries filtered to any one identity number at most one —
and a connect call replaces any prior channel for that identity. -/
theorem connection_registry_unique (s : List (Nat × WebSocket))
    (h : Reachable s) :
    (∀ p ∈ s, ∀ q ∈ s, p.1 = q.1 → p = q)
    ∧ (∀ aid, (s.filter (fun p => decide (p.1 = aid))).length ≤ 1)
    ∧ (∀ aid ws, getChannel (connect s aid ws) aid = some ws) := by
  have hnd : (regKeys s).Nodup := reachable_nodup_regKeys h
  refine ⟨?_, ?_, ?_⟩
  · intro p hp q hq hpq
    exact List.inj_on_of_nodup_map (by simpa [regKeys] using hnd) hp hq hpq
  · intro aid
    exact filter_key_length_le_one hnd aid
  · intro aid ws
    exact getChannel_connect s aid ws

/-- Witness for connection_registry_unique: a reconnect of the same agent
identity leaves at most one entry for it. -/
theorem connection_registry_unique_witness :
    ((connect (connect [] 1 { id := 10, fails := false })
        1 { id := 11, fails := false }).filter
      (fun p => decide (p.1 = 1))).length ≤ 1 :=
  (connection_registry_unique _
    (Reachable.conn _ 1 { id := 11, fails := false }
      (Reachable.conn _ 1 { id := 10, fails := false } Reachable.init))).2.1 1

end IssueTracker
